import Mathlib

/-!
Shallow embedding of the process-identity resolution and lifecycle-control
engine of the `mcp_server_manager` repository.

The repository contains two near-identical variants of the manager:
* the primary variant `src/mcp_manager.py` (classed here without a suffix), and
* the secondary variant `src/mcp_server_manager/mcp_manager.py`
  (embedded here with a `_v2` suffix).

Machine-level details that the claims do not touch are fixed as follows:
* the OS process table is a snapshot: a list of processes with pid, argv,
  creation time (integer seconds) and the pids of their recursive descendants
  (what `psutil`'s `children(recursive=True)` returns);
* listening-port and working-directory enrichment is display-only in the
  source (never read by start/stop/restart/uninstall logic) and is omitted;
* OS signal delivery succeeds (`kill`/`terminate`/`killpg` do not raise),
  except where a claim depends on a failure path, which is then an explicit
  parameter; signals actually issued are recorded in an action list;
* wall-clock time is an explicit `now : Int` parameter; `time.sleep` only
  delays and is irrelevant to the state transition.
-/

set_option maxRecDepth 8000

namespace MCP

/-- Test that the first character list is an initial segment of the second. -/
def leadsWith : List Char → List Char → Bool
  | [], _ => true
  | _ :: _, [] => false
  | a :: as, b :: bs => a == b && leadsWith as bs

/-- Substring containment on raw character lists. -/
def hasSub (pat : List Char) : List Char → Bool
  | [] => leadsWith pat []
  | b :: bs => leadsWith pat (b :: bs) || hasSub pat bs

/-- Python's `pat in s` substring test on strings. -/
def strContains (s pat : String) : Bool := hasSub pat.toList s.toList

/-- Python's `s.startswith(pat)`. -/
def strStarts (s pat : String) : Bool := leadsWith pat.toList s.toList

/-- Python's `s.endswith(pat)`. -/
def strEnds (s pat : String) : Bool :=
  leadsWith pat.toList.reverse s.toList.reverse

/-- Python's `' '.join(cmdline)`. -/
def joinCmd (cmdline : List String) : String := String.intercalate " " cmdline

/-- One configured server entry of the `mcpServers` mapping: `command`,
`args` and `env` as stored in the JSON configuration file.  The
`description` field is informational only and never read by the logic
embedded here, so it is omitted. -/
structure ServerSpec where
  command : String
  args : List String
  env : List (String × String)
  deriving Repr, DecidableEq

/-- The `mcpServers` mapping, in Python dict iteration (insertion) order. -/
abbrev Config := List (String × ServerSpec)

/-- Snapshot of one OS process: pid, argv, creation time in seconds, and the
pids of its recursive descendants. -/
structure Proc where
  pid : Nat
  cmdline : List String
  createTime : Int
  children : List Nat
  deriving Repr, DecidableEq

/-- Snapshot of the OS process table, in enumeration order. -/
abbrev ProcTable := List Proc

/-- One entry of the scan result built by `detect_cursor_mcp_servers`:
the matched server name, the pid and the argv of the matched process. -/
structure RunningServer where
  name : String
  pid : Nat
  cmdline : List String
  deriving Repr, DecidableEq

/-- Python `next((name for name, config in self.config['mcpServers'].items()
if config == server_config), None)` from the primary variant's matcher: the
first configured name whose spec compares equal to the given spec. -/
def findServerName (cfg : Config) (spec : ServerSpec) : Option String :=
  (cfg.find? (fun q => q.2 == spec)).map (fun q => q.1)

/-- Predicate on an argument string used by the primary matcher to extract
the package identifier from a spec's `args`. -/
def isPkgIdentArg (arg : String) : Bool :=
  strStarts arg "@modelcontextprotocol/server-" ||
  strStarts arg "mcp-server-" ||
  strStarts arg "@e2b/" ||
  arg == "e2b"

/-- First package-identifier-shaped entry of a spec's `args`, if any. -/
def packageIdentifier (spec : ServerSpec) : Option String :=
  spec.args.find? isPkgIdentArg

/-- Generic fallback checks of the primary matcher (`_is_mcp_server_process`
in `src/mcp_manager.py`, the part after the per-server special cases). -/
def genericMatch (cmdStr serverName : String) (spec : ServerSpec) : Bool :=
  strContains cmdStr ("npm exec @modelcontextprotocol/server-" ++ serverName) ||
  strContains cmdStr ("npx @modelcontextprotocol/server-" ++ serverName) ||
  strContains cmdStr ("npm exec mcp-server-" ++ serverName) ||
  strContains cmdStr ("npx mcp-server-" ++ serverName) ||
  strContains cmdStr ("mcp-server-" ++ serverName) ||
  (match packageIdentifier spec with
   | some pkg => strContains cmdStr pkg
   | none => false)

/-- Per-server special cases of the primary matcher (the `if`/`elif` chain on
the derived server name); on a non-hit the Python code falls through to the
generic checks. -/
def specialMatch (cmdStr serverName : String) : Bool :=
  if serverName == "filesystem" then
    strContains cmdStr "@modelcontextprotocol/server-filesystem" ||
    strContains cmdStr "mcp-server-filesystem"
  else if serverName == "memory" then
    strContains cmdStr "mcp-server-memory" ||
    strContains cmdStr "@modelcontextprotocol/server-memory"
  else if serverName == "sequential-thinking" then
    strContains cmdStr "mcp-server-sequential-thinking" ||
    strContains cmdStr "@modelcontextprotocol/server-sequential-thinking"
  else if serverName == "e2b" then
    strContains cmdStr "@smithery/cli run e2b" ||
    strContains cmdStr "run e2b" ||
    strContains cmdStr "@e2b/mcp-server" ||
    strContains cmdStr "e2b --config"
  else false

/-- The primary variant's matcher `_is_mcp_server_process` from
`src/mcp_manager.py`: rejects argvs shorter than two elements, then the
Cursor-application exclusion, then derives the server name from the spec by
dict equality and applies the special-case and generic signature checks.
When the spec is not found in the configuration (unreachable from the scan
loop, where the spec always comes from the configuration) the result is
`false`. -/
def is_mcp_server_process (cfg : Config) (cmdline : List String)
    (spec : ServerSpec) : Bool :=
  if cmdline.length < 2 then false
  else
    let cmdStr := joinCmd cmdline
    if strContains cmdStr "Cursor.app/Contents/MacOS/Cursor" then false
    else
      match findServerName cfg spec with
      | none => false
      | some serverName =>
          specialMatch cmdStr serverName || genericMatch cmdStr serverName spec

/-- The secondary variant's matcher `_is_mcp_server_process` from
`src/mcp_server_manager/mcp_manager.py`: an argument of the spec that
contains `@modelcontextprotocol` or `mcp-` and occurs as a substring of the
joined command line. -/
def is_mcp_server_process_v2 (cmdline : List String) (spec : ServerSpec) : Bool :=
  if cmdline.isEmpty then false
  else
    let cmdStr := joinCmd cmdline
    spec.args.any (fun arg =>
      (strContains arg "@modelcontextprotocol" || strContains arg "mcp-") &&
      strContains cmdStr arg)

/-- First configured server claiming a process in the primary variant's scan
loop (`detect_cursor_mcp_servers` iterates specs in order and `break`s at the
first hit; processes with empty argv are skipped). -/
def procMatch (cfg : Config) (p : Proc) : Option String :=
  if p.cmdline.isEmpty then none
  else (cfg.find? (fun q => is_mcp_server_process cfg p.cmdline q.2)).map
    (fun q => q.1)

/-- Scan of the primary variant: `detect_cursor_mcp_servers` over the process
table, one `RunningServer` entry per process claimed by some spec. -/
def detect_cursor_mcp_servers (cfg : Config) (table : ProcTable) :
    List RunningServer :=
  table.filterMap (fun p =>
    (procMatch cfg p).map (fun n => RunningServer.mk n p.pid p.cmdline))

/-- First configured server claiming a process in the secondary variant. -/
def procMatch_v2 (cfg : Config) (p : Proc) : Option String :=
  if p.cmdline.isEmpty then none
  else (cfg.find? (fun q => is_mcp_server_process_v2 p.cmdline q.2)).map
    (fun q => q.1)

/-- Scan of the secondary variant. -/
def detect_cursor_mcp_servers_v2 (cfg : Config) (table : ProcTable) :
    List RunningServer :=
  table.filterMap (fun p =>
    (procMatch_v2 cfg p).map (fun n => RunningServer.mk n p.pid p.cmdline))

/-- Signals that the termination sequences can issue: `sigterm` for
`terminate()`, `sigkill` for `kill()`, and `groupSigterm` for
`os.killpg(os.getpgid(pid), signal.SIGTERM)` recorded against the pid whose
group is signalled. -/
inductive Sig
  | sigterm
  | sigkill
  | groupSigterm
  deriving Repr, DecidableEq

/-- One signal actually issued against a pid during a stop sequence. -/
structure KillCall where
  pid : Nat
  sig : Sig
  deriving Repr, DecidableEq

/-- Outcome of `stop_server`: the boolean it returns plus the signals it
issued, in order. -/
structure StopResult where
  success : Bool
  calls : List KillCall
  deriving Repr, DecidableEq

/-- Cursor-application exclusion denylist checked first by the primary
variant's `stop_server` safety gate. -/
def cursor_patterns : List String :=
  ["Cursor.app", "cursor.app", "/Applications/Cursor", "Cursor Helper",
   "cursor_", "CursorUpdate"]

/-- Signature-confirmation patterns of the primary variant's `stop_server`,
including the per-server extensions for `e2b`, `memory` and
`sequential-thinking`. -/
def mcp_patterns (serverName : String) : List String :=
  ["mcp-server-" ++ serverName, "server-" ++ serverName,
   "@modelcontextprotocol/server-" ++ serverName, "@e2b/mcp-server"]
  ++ (if serverName == "e2b" then ["@smithery/cli run e2b", "e2b --config"]
      else [])
  ++ (if serverName == "memory" then ["server-memory", "mcp-server-memory"]
      else [])
  ++ (if serverName == "sequential-thinking" then
        ["server-sequential-thinking", "mcp-server-sequential-thinking"]
      else [])

/-- The primary variant's `stop_server` (`src/mcp_manager.py`).  Returns its
result together with the process table after the signalled processes have
exited.  Control flow mirrors the source: unknown name fails; no scan match
is idempotent success; then the safety gate (Cursor denylist, per-server
signature confirmation, 24-hour age cap), each refusal issuing no signal;
on passing the gate, `kill()` on every recursive child (already-exited
children are absorbed by `except psutil.NoSuchProcess: pass`) and then
`kill()` on the matched process. -/
def stop_server (cfg : Config) (table : ProcTable) (now : Int)
    (name : String) : StopResult × ProcTable :=
  if cfg.any (fun q => q.1 == name) then
    match (detect_cursor_mcp_servers cfg table).find?
        (fun s => s.name == name) with
    | none => (⟨true, []⟩, table)
    | some s =>
      match table.find? (fun p => p.pid == s.pid) with
      | none => (⟨true, []⟩, table)
      | some p =>
        let cmd := joinCmd p.cmdline
        if cursor_patterns.any (fun pat => strContains cmd pat) then
          (⟨false, []⟩, table)
        else if (mcp_patterns name).any (fun pat => strContains cmd pat) then
          if 86400 < now - p.createTime then
            (⟨false, []⟩, table)
          else
            let calls := p.children.map (fun c => KillCall.mk c Sig.sigkill)
              ++ [KillCall.mk p.pid Sig.sigkill]
            let killed := p.children ++ [p.pid]
            (⟨true, calls⟩,
             table.filter (fun q => !(killed.contains q.pid)))
        else
          (⟨false, []⟩, table)
  else
    (⟨false, []⟩, table)

/-- The secondary variant's `stop_server`
(`src/mcp_server_manager/mcp_manager.py`).  No safety gate: on a scan match
it sends `terminate()` to every recursive child and then SIGTERM to the
matched process's group via `os.killpg`.  `killpgOk` says whether the
`os.killpg` call succeeds; when it raises, the `except` clause itself
references the undefined name `ProcessGroupError`, so a `NameError` escapes
to the outer handler and the function returns `False` (the
terminate/wait/kill escalation below it is unreachable). -/
def stop_server_v2 (cfg : Config) (table : ProcTable) (killpgOk : Bool)
    (name : String) : StopResult × ProcTable :=
  match (detect_cursor_mcp_servers_v2 cfg table).find?
      (fun s => s.name == name) with
  | none => (⟨true, []⟩, table)
  | some s =>
    match table.find? (fun p => p.pid == s.pid) with
    | none => (⟨true, []⟩, table)
    | some p =>
      let childCalls := p.children.map (fun c => KillCall.mk c Sig.sigterm)
      if killpgOk then
        (⟨true, childCalls ++ [KillCall.mk p.pid Sig.groupSigterm]⟩,
         table.filter (fun q =>
           !((p.children ++ [p.pid]).contains q.pid)))
      else
        (⟨false, childCalls⟩,
         table.filter (fun q => !(p.children.contains q.pid)))

/-- Parameters of the single `subprocess.Popen` call made by
`start_server`: the argv, the environment the child receives, and the
`start_new_session` / stdout / stderr pipe settings. -/
structure SpawnCall where
  argv : List String
  env : List (String × String)
  newSession : Bool
  stdoutPipe : Bool
  stderrPipe : Bool
  deriving Repr, DecidableEq

/-- Outcome of `start_server`: the boolean it returns and the spawn call it
issued, if any. -/
structure StartResult where
  success : Bool
  spawned : Option SpawnCall
  deriving Repr, DecidableEq

/-- Shared `start_server` logic (identical in both variants): unknown name
fails; a scan match is idempotent success with no spawn; otherwise
`subprocess.Popen([command] + args, stdout=PIPE, stderr=PIPE,
start_new_session=True)` — note that no `env` argument is passed, so the
child receives the inherited environment unchanged.  The spawn is modelled
as succeeding (the `except` branches cover `SpawnFailure`, which no claim
exercises); the new process enters the table with the given fresh pid and
the current time as creation time. -/
def start_server (cfg : Config) (table : ProcTable)
    (inheritedEnv : List (String × String)) (now : Int) (newPid : Nat)
    (name : String) : StartResult × ProcTable :=
  match cfg.find? (fun q => q.1 == name) with
  | none => (⟨false, none⟩, table)
  | some q =>
    if (detect_cursor_mcp_servers cfg table).any (fun s => s.name == name)
    then (⟨true, none⟩, table)
    else
      let argv := q.2.command :: q.2.args
      (⟨true, some ⟨argv, inheritedEnv, true, true, true⟩⟩,
       table ++ [⟨newPid, argv, now, []⟩])

/-- Outcome of the CLI `restart` command: the result of the stop phase,
whether the start phase was invoked at all, and what it did. -/
structure RestartResult where
  stopOk : Bool
  startCalled : Bool
  startOk : Bool
  startSpawned : Option SpawnCall
  deriving Repr, DecidableEq

/-- The CLI `restart` command (identical in both variants): it calls
`manager.stop_server(name)`, discards the returned value, sleeps the fixed
two-second settle delay, and then unconditionally calls
`manager.start_server(name)`. -/
def restart (cfg : Config) (table : ProcTable) (now : Int)
    (inheritedEnv : List (String × String)) (newPid : Nat) (name : String) :
    RestartResult × ProcTable :=
  let stopStep := stop_server cfg table now name
  let startStep := start_server cfg stopStep.2 inheritedEnv (now + 2) newPid name
  (⟨stopStep.1.success, true, startStep.1.success, startStep.1.spawned⟩,
   startStep.2)

/-- Result of the external `npm uninstall -g <package>` subprocess. -/
inductive NpmResult
  | ok
  | nonzeroExit
  | timedOut
  deriving Repr, DecidableEq

/-- Outcome of `uninstall_server`: the boolean it returns, the in-memory
configuration afterwards, and whether the configuration file was rewritten. -/
structure UninstallOutcome where
  success : Bool
  cfg : Config
  wroteFile : Bool
  deriving Repr, DecidableEq

/-- Package-name extraction shared by `uninstall_server` in both variants:
the first argument containing `@`, or containing `mcp-`, or ending in
`-mcp`. -/
def uninstallPackageName (spec : ServerSpec) : Option String :=
  spec.args.find? (fun arg =>
    strContains arg "@" || strContains arg "mcp-" || strEnds arg "-mcp")

/-- The primary variant's `uninstall_server` (the secondary variant is
line-for-line identical in this logic): unknown name fails; if the server is
running and stopping it fails, abort before touching the configuration; if
no package name can be derived, abort; run `npm uninstall -g`, whose outcome
is the external parameter `npm`; only on a zero exit is the entry popped
from the in-memory configuration and the file rewritten. -/
def uninstall_server (cfg : Config) (table : ProcTable) (now : Int)
    (npm : NpmResult) (name : String) : UninstallOutcome :=
  match cfg.find? (fun q => q.1 == name) with
  | none => ⟨false, cfg, false⟩
  | some q =>
    if (detect_cursor_mcp_servers cfg table).any (fun s => s.name == name)
        && !(stop_server cfg table now name).1.success then
      ⟨false, cfg, false⟩
    else
      match uninstallPackageName q.2 with
      | none => ⟨false, cfg, false⟩
      | some _ =>
        match npm with
        | NpmResult.ok =>
            ⟨true, cfg.filter (fun r => !(r.1 == name)), true⟩
        | NpmResult.nonzeroExit => ⟨false, cfg, false⟩
        | NpmResult.timedOut => ⟨false, cfg, false⟩

/-- Modelled from the spec's words (for comparison against the source's
spawn): the spec's `env` mapping overlaid on the inherited environment — a
key defined by the spec wins, all other inherited keys survive. -/
def spec_mergedEnv (inherited specEnv : List (String × String)) :
    List (String × String) :=
  inherited.filter (fun kv => !(specEnv.any (fun sv => sv.1 == kv.1)))
    ++ specEnv

/-- Fixture: the spec of the `filesystem` scenario server from the
configuration store example. -/
def specFS : ServerSpec :=
  ⟨"npx", ["-y", "@modelcontextprotocol/server-filesystem", "/tmp"], []⟩

/-- Fixture: configuration store containing only the `filesystem` server. -/
def cfgFS : Config := [("filesystem", specFS)]

/-- Fixture: argv of a live `npx`-launched filesystem server process. -/
def argvNpx : List String :=
  ["node", "/usr/local/bin/npx", "-y",
   "@modelcontextprotocol/server-filesystem", "/tmp"]

/-- Fixture: a live filesystem server process. -/
def procNpx : Proc := ⟨77, argvNpx, 0, []⟩

/-- Fixture: a process whose command line carries both the
`Cursor.app/Contents/MacOS/Cursor` exclusion marker and a filesystem
signature token. -/
def procCursorApp : Proc :=
  ⟨10, ["Cursor.app/Contents/MacOS/Cursor",
        "@modelcontextprotocol/server-filesystem"], 0, []⟩

/-- Fixture: a process whose command line carries the `cursor_` exclusion
marker together with a filesystem signature token, and which the primary
matcher (whose own exclusion only covers the full
`Cursor.app/Contents/MacOS/Cursor` fragment) still matches. -/
def procCursorUpdater : Proc :=
  ⟨11, ["node", "cursor_updater", "-y",
        "@modelcontextprotocol/server-filesystem", "/tmp"], 0, []⟩

/-- Fixture: a filesystem server process created at time 0, used with a
current time far beyond the 24-hour age threshold. -/
def procStale : Proc :=
  ⟨10, ["/usr/local/bin/npx", "-y",
        "@modelcontextprotocol/server-filesystem", "/tmp"], 0, []⟩

/-- Fixture: a recent filesystem server process with two descendants. -/
def procTree : Proc := ⟨10, argvNpx, 0, [20, 21]⟩

/-- Fixture: a one-server configuration whose spec carries an `env`
mapping. -/
def cfgEnv : Config := [("x", ⟨"node", ["srv.js"], [("A", "1")]⟩)]

/-- Fixture: a process unrelated to any configured server. -/
def procOther : Proc := ⟨99, ["bash", "-c", "sleep 999"], 0, []⟩

/-- Claim C1, counterexample.  In the secondary variant
(`src/mcp_server_manager/mcp_manager.py`), `stop("filesystem")` on a matched
process whose command line contains the `Cursor.app` exclusion marker
succeeds and sends a termination signal (SIGTERM via `os.killpg`) to that
very process: no exclusion check is applied before signalling, so the
claim's "never issues any kill or terminate call" is false as stated. -/
theorem claim1_counterexample :
    strContains (joinCmd procCursorApp.cmdline) "Cursor.app" = true ∧
    (stop_server_v2 cfgFS [procCursorApp] true "filesystem").1 =
      ⟨true, [⟨procCursorApp.pid, Sig.groupSigterm⟩]⟩ := by
  decide

/-- Claim C1, amended.  In the primary variant (`src/mcp_manager.py`), for
every configured server name, whenever the process matched at stop time has
a command line containing any entry of the exclusion denylist, `stop`
refuses and issues no kill or terminate call at all: the denylist check is
applied before any signal is sent and dominates a positive signature
match. -/
theorem claim1_amended (cfg : Config) (table : ProcTable) (now : Int)
    (name : String) (s : RunningServer) (p : Proc)
    (hs : (detect_cursor_mcp_servers cfg table).find?
      (fun x => x.name == name) = some s)
    (hp : table.find? (fun x => x.pid == s.pid) = some p)
    (hc : cursor_patterns.any
      (fun pat => strContains (joinCmd p.cmdline) pat) = true) :
    stop_server cfg table now name = (⟨false, []⟩, table) := by
  unfold stop_server
  cases hA : cfg.any (fun q => q.1 == name) with
  | false => simp [hA]
  | true => simp [hA, hs, hp, hc]

/-- Claim C1, witness for the amended theorem: a matched process whose
command line contains the `cursor_` denylist fragment alongside a valid
filesystem signature token is left unsignalled and the stop is refused. -/
theorem claim1_amended_witness :
    stop_server cfgFS [procCursorUpdater] 0 "filesystem" =
      (⟨false, []⟩, [procCursorUpdater]) :=
  claim1_amended cfgFS [procCursorUpdater] 0 "filesystem"
    ⟨"filesystem", 11, procCursorUpdater.cmdline⟩ procCursorUpdater
    (by decide) (by decide) (by decide)

/-- Claim C2, counterexample.  With the `filesystem` server matched to a
process older than the 24-hour threshold, `stop` is refused by the safety
gate, yet the CLI `restart` command still proceeds to invoke `start`: the
refusal is not propagated. -/
theorem claim2_counterexample :
    (stop_server cfgFS [procStale] 100000 "filesystem").1 = ⟨false, []⟩ ∧
    (restart cfgFS [procStale] 100000 [] 42 "filesystem").1.stopOk = false ∧
    (restart cfgFS [procStale] 100000 [] 42 "filesystem").1.startCalled
      = true := by
  decide

/-- Claim C2, amended.  The CLI `restart` command unconditionally runs the
stop phase, discards its result, and always proceeds to call `start` after
the settle delay: its stop field is exactly `stop_server`'s result and its
start field is exactly `start_server`'s result on the post-stop state,
regardless of whether stop succeeded or was refused. -/
theorem claim2_amended (cfg : Config) (table : ProcTable) (now : Int)
    (inheritedEnv : List (String × String)) (newPid : Nat) (name : String) :
    (restart cfg table now inheritedEnv newPid name).1.startCalled = true ∧
    (restart cfg table now inheritedEnv newPid name).1.stopOk =
      (stop_server cfg table now name).1.success ∧
    (restart cfg table now inheritedEnv newPid name).1.startOk =
      (start_server cfg (stop_server cfg table now name).2 inheritedEnv
        (now + 2) newPid name).1.success := by
  exact ⟨rfl, rfl, rfl⟩

/-- Claim C8.  With the store mapping `filesystem` to `npx -y
@modelcontextprotocol/server-filesystem /tmp`, a live process with argv
`["node", "/usr/local/bin/npx", "-y",
"@modelcontextprotocol/server-filesystem", "/tmp"]` is matched to
`filesystem` by both variants' matchers, and the scan reports it under that
name. -/
theorem claim8_matcher_scenario :
    is_mcp_server_process cfgFS argvNpx specFS = true ∧
    is_mcp_server_process_v2 argvNpx specFS = true ∧
    detect_cursor_mcp_servers cfgFS [procNpx] =
      [⟨"filesystem", 77, argvNpx⟩] ∧
    detect_cursor_mcp_servers_v2 cfgFS [procNpx] =
      [⟨"filesystem", 77, argvNpx⟩] := by
  decide

/-- Claim C10.  The primary variant's matcher returns `false` for every
argv with fewer than two elements, for every configuration and spec — in
particular a single-element argv is never matched, even when that element
is a full signature token. -/
theorem claim10_short_argv_never_matches (cfg : Config) (spec : ServerSpec)
    (cmdline : List String) (h : cmdline.length < 2) :
    is_mcp_server_process cfg cmdline spec = false := by
  unfold is_mcp_server_process
  simp [h]

/-- Claim C10, witness: a single-element argv consisting of a full
filesystem signature token is not matched to the configured `filesystem`
server. -/
theorem claim10_witness :
    (["@modelcontextprotocol/server-filesystem"] : List String).length < 2 ∧
    is_mcp_server_process cfgFS
      ["@modelcontextprotocol/server-filesystem"] specFS = false :=
  ⟨by decide,
   claim10_short_argv_never_matches cfgFS specFS
     ["@modelcontextprotocol/server-filesystem"] (by decide)⟩

/-- Claim C3, counterexample.  In the secondary variant there is no age
check at all: a matched filesystem process created at time 0 and observed
at time 200000 (age far beyond the 86400-second threshold) is still
terminated, and the stop reports success. -/
theorem claim3_counterexample :
    (86400 : Int) < 200000 - procNpx.createTime ∧
    (stop_server_v2 cfgFS [procNpx] true "filesystem").1 =
      ⟨true, [⟨procNpx.pid, Sig.groupSigterm⟩]⟩ := by
  decide

/-- Claim C3, amended.  In the primary variant, for every configured server
name and every matched process whose age (current time minus creation time)
exceeds the fixed 24-hour threshold of 86400 seconds, `stop` refuses and
issues no kill call, even when the process otherwise satisfies the
signature check. -/
theorem claim3_amended (cfg : Config) (table : ProcTable) (now : Int)
    (name : String) (s : RunningServer) (p : Proc)
    (hs : (detect_cursor_mcp_servers cfg table).find?
      (fun x => x.name == name) = some s)
    (hp : table.find? (fun x => x.pid == s.pid) = some p)
    (hage : 86400 < now - p.createTime) :
    stop_server cfg table now name = (⟨false, []⟩, table) := by
  unfold stop_server
  cases hA : cfg.any (fun q => q.1 == name) with
  | false => simp [hA]
  | true =>
    simp only [hA, hs, hp, if_true]
    split_ifs <;> rfl

/-- Claim C3, witness for the amended theorem: a matched filesystem process
created at time 0 is not signalled when stop runs at time 200000; the stop
is refused. -/
theorem claim3_amended_witness :
    stop_server cfgFS [procStale] 200000 "filesystem" =
      (⟨false, []⟩, [procStale]) :=
  claim3_amended cfgFS [procStale] 200000 "filesystem"
    ⟨"filesystem", 10, procStale.cmdline⟩ procStale
    (by decide) (by decide) (by decide)

/-- Claim C4, counterexample.  In the primary variant, a stop that passes
the safety gate never sends a graceful termination signal: the very first
signal issued is already a forced kill, and every signal of the sequence is
a forced kill — there is no graceful-then-escalate phase. -/
theorem claim4_counterexample :
    (stop_server cfgFS [procTree] 100 "filesystem").1.success = true ∧
    (stop_server cfgFS [procTree] 100 "filesystem").1.calls.head? =
      some ⟨20, Sig.sigkill⟩ ∧
    (stop_server cfgFS [procTree] 100 "filesystem").1.calls.all
      (fun c => c.sig == Sig.sigkill) = true := by
  decide

/-- Claim C4, amended.  When the primary variant's stop passes the safety
gate for a matched process, the termination sequence kills every recursive
descendant first (already-exited descendants being absorbed as success) and
then the matched process itself — but each signal is an immediate forced
kill; no graceful termination signal is sent and there is no grace-period
escalation. -/
theorem claim4_amended (cfg : Config) (table : ProcTable) (now : Int)
    (name : String) (s : RunningServer) (p : Proc)
    (hn : cfg.any (fun q => q.1 == name) = true)
    (hs : (detect_cursor_mcp_servers cfg table).find?
      (fun x => x.name == name) = some s)
    (hp : table.find? (fun x => x.pid == s.pid) = some p)
    (hc : cursor_patterns.any
      (fun pat => strContains (joinCmd p.cmdline) pat) = false)
    (hm : (mcp_patterns name).any
      (fun pat => strContains (joinCmd p.cmdline) pat) = true)
    (hage : ¬ 86400 < now - p.createTime) :
    stop_server cfg table now name =
      (⟨true, p.children.map (fun c => KillCall.mk c Sig.sigkill)
          ++ [KillCall.mk p.pid Sig.sigkill]⟩,
       table.filter (fun q => !((p.children ++ [p.pid]).contains q.pid)))
      := by
  unfold stop_server
  simp [hn, hs, hp, hc, hm, hage]

/-- Claim C4, witness for the amended theorem: a gate-passing stop of a
matched filesystem process with descendants 20 and 21 kills 20, then 21,
then the process itself, each with a forced kill, and empties the table. -/
theorem claim4_amended_witness :
    stop_server cfgFS [procTree] 100 "filesystem" =
      (⟨true, [⟨20, Sig.sigkill⟩, ⟨21, Sig.sigkill⟩, ⟨10, Sig.sigkill⟩]⟩,
       []) :=
  claim4_amended cfgFS [procTree] 100 "filesystem"
    ⟨"filesystem", 10, procTree.cmdline⟩ procTree
    (by decide) (by decide) (by decide) (by decide) (by decide) (by decide)

/-- Claim C5, counterexample.  For a configured server whose spec carries
the env mapping `{"A": "1"}`, a not-running `start` spawns the child with
the inherited environment unchanged: the spec's env mapping is never
overlaid (the `subprocess.Popen` call passes no `env` argument), so the
spawned environment differs from the overlay the claim requires. -/
theorem claim5_counterexample :
    (start_server cfgEnv [] [("PATH", "/bin")] 0 7 "x").1.spawned =
      some ⟨["node", "srv.js"], [("PATH", "/bin")], true, true, true⟩ ∧
    spec_mergedEnv [("PATH", "/bin")] [("A", "1")] ≠ [("PATH", "/bin")] := by
  decide

/-- Claim C5, amended.  For every configured server name that the scan does
not report as running, `start` spawns the configured command with the
configured args, detached in a new session, with stdout and stderr captured
via pipes — but with the inherited environment passed through unchanged;
the spec's env mapping is not applied. -/
theorem claim5_amended (cfg : Config) (table : ProcTable)
    (inheritedEnv : List (String × String)) (now : Int) (newPid : Nat)
    (name : String) (spec : ServerSpec)
    (h1 : cfg.find? (fun q => q.1 == name) = some (name, spec))
    (h2 : (detect_cursor_mcp_servers cfg table).any
      (fun x => x.name == name) = false) :
    start_server cfg table inheritedEnv now newPid name =
      (⟨true, some ⟨spec.command :: spec.args, inheritedEnv,
        true, true, true⟩⟩,
       table ++ [⟨newPid, spec.command :: spec.args, now, []⟩]) := by
  unfold start_server
  simp [h1, h2]

/-- Claim C5, witness for the amended theorem: starting the not-running
server `x` spawns `node srv.js` in a new session with piped stdout/stderr
and the inherited environment. -/
theorem claim5_amended_witness :
    start_server cfgEnv [] [("PATH", "/bin")] 0 7 "x" =
      (⟨true, some ⟨["node", "srv.js"], [("PATH", "/bin")],
        true, true, true⟩⟩,
       [⟨7, ["node", "srv.js"], 0, []⟩]) :=
  claim5_amended cfgEnv [] [("PATH", "/bin")] 0 7 "x"
    ⟨"node", ["srv.js"], [("A", "1")]⟩ (by decide) (by decide)

/-- Claim C6.  `start` is idempotent: when the server is not running, the
first `start` spawns the configured command once; if the scan observes that
spawned process (hypothesis `h3`), a second `start` in immediate succession
returns success without spawning anything, and exactly one live process is
matched to the server name. -/
theorem claim6_start_idempotent (cfg : Config) (table : ProcTable)
    (inheritedEnv inheritedEnv2 : List (String × String)) (now now2 : Int)
    (newPid newPid2 : Nat) (name : String) (spec : ServerSpec)
    (h1 : cfg.find? (fun q => q.1 == name) = some (name, spec))
    (h2 : (detect_cursor_mcp_servers cfg table).any
      (fun x => x.name == name) = false)
    (h3 : procMatch cfg ⟨newPid, spec.command :: spec.args, now, []⟩ =
      some name) :
    start_server cfg table inheritedEnv now newPid name =
      (⟨true, some ⟨spec.command :: spec.args, inheritedEnv,
        true, true, true⟩⟩,
       table ++ [⟨newPid, spec.command :: spec.args, now, []⟩]) ∧
    start_server cfg (table ++ [⟨newPid, spec.command :: spec.args, now, []⟩])
        inheritedEnv2 now2 newPid2 name =
      (⟨true, none⟩,
       table ++ [⟨newPid, spec.command :: spec.args, now, []⟩]) ∧
    (detect_cursor_mcp_servers cfg
        (table ++ [⟨newPid, spec.command :: spec.args, now, []⟩])).countP
      (fun x => x.name == name) = 1 := by
  have hdet : detect_cursor_mcp_servers cfg
      (table ++ [⟨newPid, spec.command :: spec.args, now, []⟩]) =
      detect_cursor_mcp_servers cfg table ++
        [⟨name, newPid, spec.command :: spec.args⟩] := by
    unfold detect_cursor_mcp_servers
    rw [List.filterMap_append]
    simp [detect_cursor_mcp_servers, h3]
  have hany : (detect_cursor_mcp_servers cfg
      (table ++ [⟨newPid, spec.command :: spec.args, now, []⟩])).any
      (fun x => x.name == name) = true := by
    rw [hdet, List.any_append]
    simp
  refine ⟨?_, ?_, ?_⟩
  · unfold start_server
    simp [h1, h2]
  · unfold start_server
    simp [h1, hany]
  · rw [hdet, List.countP_append]
    have hz : (detect_cursor_mcp_servers cfg table).countP
        (fun x => x.name == name) = 0 := by
      rw [List.countP_eq_zero]
      intro a ha
      exact (List.any_eq_false.mp h2) a ha
    simp [hz, List.countP_cons]

/-- Claim C6, witness: starting the not-running `filesystem` server from an
empty process table spawns it once; a second immediate start returns
success without a spawn, and the scan reports exactly one `filesystem`
process. -/
theorem claim6_witness :
    start_server cfgFS [] [] 0 42 "filesystem" =
      (⟨true, some ⟨"npx" :: specFS.args, [], true, true, true⟩⟩,
       [⟨42, "npx" :: specFS.args, 0, []⟩]) ∧
    start_server cfgFS [⟨42, "npx" :: specFS.args, 0, []⟩] [] 1 43
        "filesystem" =
      (⟨true, none⟩, [⟨42, "npx" :: specFS.args, 0, []⟩]) ∧
    (detect_cursor_mcp_servers cfgFS
        [⟨42, "npx" :: specFS.args, 0, []⟩]).countP
      (fun x => x.name == "filesystem") = 1 :=
  claim6_start_idempotent cfgFS [] [] [] 0 1 42 43 "filesystem" specFS
    (by decide) (by decide) (by decide)

/-- Claim C7.  In both variants, stopping a configured server that the scan
does not report as running returns success with zero termination calls and
leaves the process table unchanged, so an immediately repeated `stop` also
returns success with no termination attempted. -/
theorem claim7_stop_idempotent (cfg : Config) (table : ProcTable)
    (now now2 : Int) (killpgOk : Bool) (name : String)
    (h1 : cfg.any (fun q => q.1 == name) = true)
    (h2 : (detect_cursor_mcp_servers cfg table).find?
      (fun x => x.name == name) = none)
    (h3 : (detect_cursor_mcp_servers_v2 cfg table).find?
      (fun x => x.name == name) = none) :
    stop_server cfg table now name = (⟨true, []⟩, table) ∧
    stop_server cfg (stop_server cfg table now name).2 now2 name =
      (⟨true, []⟩, table) ∧
    stop_server_v2 cfg table killpgOk name = (⟨true, []⟩, table) ∧
    stop_server_v2 cfg (stop_server_v2 cfg table killpgOk name).2 killpgOk
      name = (⟨true, []⟩, table) := by
  have e1 : stop_server cfg table now name = (⟨true, []⟩, table) := by
    unfold stop_server
    simp [h1, h2]
  have e1b : stop_server cfg table now2 name = (⟨true, []⟩, table) := by
    unfold stop_server
    simp [h1, h2]
  have e2 : stop_server_v2 cfg table killpgOk name = (⟨true, []⟩, table) := by
    unfold stop_server_v2
    simp [h3]
  refine ⟨e1, ?_, e2, ?_⟩
  · rw [e1]
    exact e1b
  · rw [e2]
    exact e2

/-- Claim C7, witness: with only an unrelated process alive, stopping
`filesystem` twice succeeds both times with no termination calls, in both
variants. -/
theorem claim7_witness :
    stop_server cfgFS [procOther] 0 "filesystem" =
      (⟨true, []⟩, [procOther]) ∧
    stop_server cfgFS (stop_server cfgFS [procOther] 0 "filesystem").2 5
      "filesystem" = (⟨true, []⟩, [procOther]) ∧
    stop_server_v2 cfgFS [procOther] true "filesystem" =
      (⟨true, []⟩, [procOther]) ∧
    stop_server_v2 cfgFS
      (stop_server_v2 cfgFS [procOther] true "filesystem").2 true
      "filesystem" = (⟨true, []⟩, [procOther]) :=
  claim7_stop_idempotent cfgFS [procOther] 0 5 true "filesystem"
    (by decide) (by decide) (by decide)

/-- Claim C9.  `uninstall_server` leaves the configuration store unchanged
on error: when the `npm uninstall -g` subprocess exits nonzero or times
out, or when stopping a running instance fails first, the in-memory
configuration is untouched and the file is not rewritten; the entry is
removed and the file rewritten only when the npm step succeeds. -/
theorem claim9_uninstall_preserves_config (cfg : Config) (table : ProcTable)
    (now : Int) (npm : NpmResult) (name : String) :
    (npm ≠ NpmResult.ok →
      (uninstall_server cfg table now npm name).cfg = cfg ∧
      (uninstall_server cfg table now npm name).wroteFile = false) ∧
    ((detect_cursor_mcp_servers cfg table).any
        (fun x => x.name == name) = true →
      (stop_server cfg table now name).1.success = false →
      (uninstall_server cfg table now npm name).cfg = cfg ∧
      (uninstall_server cfg table now npm name).wroteFile = false) ∧
    ((uninstall_server cfg table now npm name).wroteFile = true →
      npm = NpmResult.ok ∧
      (uninstall_server cfg table now npm name).cfg =
        cfg.filter (fun r => !(r.1 == name))) := by
  unfold uninstall_server
  cases hf : cfg.find? (fun q => q.1 == name) with
  | none => simp
  | some q =>
    cases hc : (detect_cursor_mcp_servers cfg table).any
        (fun x => x.name == name)
        && !(stop_server cfg table now name).1.success with
    | true => simp [hc]
    | false =>
      cases hpkg : uninstallPackageName q.2 with
      | none => simp [hc, hpkg]
      | some pkg =>
        cases npm with
        | ok =>
          refine ⟨fun h => absurd rfl h, fun ha hb => ?_, fun _ => ?_⟩
          · rw [ha, hb] at hc
            simp at hc
          · simp [hc, hpkg]
        | nonzeroExit => simp [hc, hpkg]
        | timedOut => simp [hc, hpkg]

/-- Claim C9, witness: a nonzero npm exit leaves the `filesystem` entry and
the file untouched, while a successful npm step removes exactly that
entry. -/
theorem claim9_witness :
    ((uninstall_server cfgFS [] 0 NpmResult.nonzeroExit "filesystem").cfg =
      cfgFS ∧
     (uninstall_server cfgFS [] 0 NpmResult.nonzeroExit
       "filesystem").wroteFile = false) ∧
    (NpmResult.ok = NpmResult.ok ∧
     (uninstall_server cfgFS [] 0 NpmResult.ok "filesystem").cfg =
       cfgFS.filter (fun r => !(r.1 == "filesystem"))) :=
  ⟨(claim9_uninstall_preserves_config cfgFS [] 0 NpmResult.nonzeroExit
      "filesystem").1 (by decide),
   (claim9_uninstall_preserves_config cfgFS [] 0 NpmResult.ok
      "filesystem").2.2 (by decide)⟩

end MCP
